import Mathlib

/-!
Shallow embedding of the construction-materials system: the inventory
reservation ledger (`inventory-service`: `domain/entities/material.py`,
`infrastructure/database/repository.py`,
`application/use_cases/material_use_cases.py`,
`infrastructure/message_queue/rabbitmq_publisher.py`) and the procurement
saga (`procurement-service`: `domain/entities/procurement.py`,
`application/use_cases/procurement_use_cases.py`).

Modelling conventions:
* Python integers become `Int`; `Decimal` money values and float supplier
  ratings become `ℚ` (all values arising in the code are exact decimals,
  and only ordering and exact arithmetic on them matter here).
* Database rows live in explicit association lists inside a `LedgerState`;
  a SQLAlchemy "select by primary key" becomes `List.find?` on the id and a
  row mutation plus commit becomes a functional update of that list.
* Freshly generated UUIDs (`uuid.uuid4()`) and wall-clock readings
  (`datetime.utcnow()`) are passed in as explicit parameters; timestamp
  bookkeeping fields (`created_at`, `updated_at`, `fulfilled_at`) that no
  checked property depends on are omitted from the records.
* `async` methods are pure state-passing functions; an uncaught Python
  exception becomes an explicit error constructor of the result type.
-/

namespace ConstructionMaterials

/-- Units of measurement (`MaterialUnit` in `material.py`). -/
inductive MaterialUnit
  | PIECES
  | METERS
  | KILOGRAMS
  | LITERS
  | CUBIC_METERS
  | SQUARE_METERS
  deriving DecidableEq, Repr

/-- Reasons for stock quantity changes (`StockUpdateReason` in `material.py`). -/
inductive StockUpdateReason
  | PURCHASE
  | MANUAL_ADJUSTMENT
  | CONSUMPTION
  | RESERVATION
  | RELEASE
  | INITIAL
  deriving DecidableEq, Repr

/-- `Material` entity (`material.py`). -/
structure Material where
  id : String
  name : String
  unit : MaterialUnit
  category : String
  quantity : Int
  reserved : Int
  min_threshold : Int
  deriving DecidableEq, Repr

/-- `Material.available`: quantity available for reservation, `max(0, quantity - reserved)`. -/
def Material.available (m : Material) : Int :=
  max 0 (m.quantity - m.reserved)

/-- `Material.is_low_stock`: below minimum threshold. -/
def Material.is_low_stock (m : Material) : Bool :=
  decide (m.available < m.min_threshold)

/-- `Material.can_reserve`: `available >= quantity`. -/
def Material.can_reserve (m : Material) (quantity : Int) : Bool :=
  decide (m.available ≥ quantity)

/-- `Material.reserve` (entity method): on success adds to `reserved`. -/
def Material.reserve (m : Material) (quantity : Int) : Bool × Material :=
  if m.can_reserve quantity then
    (true, { m with reserved := m.reserved + quantity })
  else
    (false, m)

/-- `Material.release` (entity method): subtracts from `reserved` when it fits. -/
def Material.release (m : Material) (quantity : Int) : Bool × Material :=
  if quantity > m.reserved then
    (false, m)
  else
    (true, { m with reserved := m.reserved - quantity })

/-- `Material.update_quantity` (entity method): `quantity = max(0, quantity + delta)`;
the `reason` argument is accepted and ignored, exactly as in the source. -/
def Material.update_quantity (m : Material) (delta : Int) (_reason : StockUpdateReason) :
    Int × Material :=
  let q := max 0 (m.quantity + delta)
  (q, { m with quantity := q })

/-- `StockMovement` audit record (`material.py` / `models.py`); the repository
stores the reason as a plain string. -/
structure StockMovement where
  id : String
  material_id : String
  quantity_delta : Int
  reason : String
  reference_id : Option String
  deriving DecidableEq, Repr

/-- `Reservation` row (`material.py` / `models.py`); status is one of
"ACTIVE", "FULFILLED", "CANCELLED" stored as a string. -/
structure Reservation where
  id : String
  material_id : String
  request_id : String
  quantity : Int
  status : String
  deriving DecidableEq, Repr

/-- The persistent state behind `SQLAlchemyMaterialRepository`: the
materials, stock_movements and reservations tables. -/
structure LedgerState where
  materials : List Material
  movements : List StockMovement
  reservations : List Reservation
  deriving DecidableEq, Repr

/-- `select(MaterialModel).where(id == material_id)` with `scalar_one_or_none`. -/
def getMaterial (s : LedgerState) (material_id : String) : Option Material :=
  s.materials.find? (fun m => m.id == material_id)

/-- Committing a mutated material row: every row with the same id is replaced. -/
def setMaterial (s : LedgerState) (m : Material) : LedgerState :=
  { s with materials := s.materials.map (fun x => if x.id == m.id then m else x) }

/-- `select(ReservationModel).where(id == reservation_id)` with `scalar_one_or_none`. -/
def getReservation (s : LedgerState) (reservation_id : String) : Option Reservation :=
  s.reservations.find? (fun r => r.id == reservation_id)

/-- Committing a mutated reservation status. -/
def setReservationStatus (s : LedgerState) (reservation_id status : String) : LedgerState :=
  { s with reservations :=
      s.reservations.map (fun r => if r.id == reservation_id then { r with status := status } else r) }

/-- `SQLAlchemyMaterialRepository.update_quantity` (`repository.py` lines 153-182):
clamps quantity at zero, appends a stock movement, never touches `reserved`.
The generated movement UUID is the explicit `movement_id` parameter. -/
def update_quantity (s : LedgerState) (movement_id material_id : String) (delta : Int)
    (reason : String) (reference_id : Option String) : Option Material × LedgerState :=
  match getMaterial s material_id with
  | none => (none, s)
  | some m =>
    let m2 := { m with quantity := max 0 (m.quantity + delta) }
    let movement : StockMovement :=
      { id := movement_id, material_id := material_id, quantity_delta := delta
        reason := reason, reference_id := reference_id }
    let s2 := setMaterial s m2
    (some m2, { s2 with movements := s2.movements ++ [movement] })

/-- `SQLAlchemyMaterialRepository.reserve` (`repository.py` lines 184-215):
checks `quantity - reserved >= quantity_requested`, adds to `reserved` and
inserts an ACTIVE reservation. The generated reservation UUID is the explicit
`reservation_id` parameter. -/
def reserve (s : LedgerState) (reservation_id material_id : String) (quantity : Int)
    (request_id : String) : Option String × LedgerState :=
  match getMaterial s material_id with
  | none => (none, s)
  | some m =>
    let available := m.quantity - m.reserved
    if available < quantity then (none, s)
    else
      let m2 := { m with reserved := m.reserved + quantity }
      let r : Reservation :=
        { id := reservation_id, material_id := material_id, request_id := request_id
          quantity := quantity, status := "ACTIVE" }
      let s2 := setMaterial s m2
      (some reservation_id, { s2 with reservations := s2.reservations ++ [r] })

/-- `SQLAlchemyMaterialRepository.release_reservation` (`repository.py` lines
217-237): returns `false` when the reservation is missing or not ACTIVE;
otherwise clamps `reserved` at zero after subtracting and marks the
reservation CANCELLED. -/
def release_reservation (s : LedgerState) (reservation_id : String) : Bool × LedgerState :=
  match getReservation s reservation_id with
  | none => (false, s)
  | some r =>
    if r.status == "ACTIVE" then
      let s1 :=
        match getMaterial s r.material_id with
        | none => s
        | some m => setMaterial s { m with reserved := max 0 (m.reserved - r.quantity) }
      (true, setReservationStatus s1 reservation_id "CANCELLED")
    else
      (false, s)

/-- `AvailabilityCheckDTO` (`material_dto.py`). -/
structure AvailabilityCheckDTO where
  material_id : String
  requested_quantity : Int
  deriving DecidableEq, Repr

/-- `AvailabilityResultDTO` (`material_dto.py`). -/
structure AvailabilityResultDTO where
  material_id : String
  material_name : String
  is_available : Bool
  available_quantity : Int
  requested_quantity : Int
  shortage : Int
  deriving DecidableEq, Repr

/-- `MaterialShortageEventDTO` (`material_dto.py` lines 115-125). -/
structure MaterialShortageEventDTO where
  material_id : String
  material_name : String
  current_quantity : Int
  requested_quantity : Int
  shortage : Int
  triggered_by_request_id : Option String
  timestamp : String
  deriving DecidableEq, Repr

/-- `ReserveMaterialDTO` (`material_dto.py`). -/
structure ReserveMaterialDTO where
  material_id : String
  quantity : Int
  request_id : String
  deriving DecidableEq, Repr

/-- `ReservationResultDTO` (`material_dto.py`). -/
structure ReservationResultDTO where
  success : Bool
  reservation_id : Option String := none
  reserved_quantity : Int := 0
  error_message : Option String := none
  deriving DecidableEq, Repr

/-- What one `MessagePublisher.publish` call does: either it returns (a bool,
as the port's signature promises) or it raises an exception carrying a
message. -/
inductive PubOutcome
  | returns (b : Bool)
  | raises (e : String)
  deriving DecidableEq, Repr

/-- A publisher, as seen by the use case: the behaviour of its `publish`
method on a shortage event. -/
def Publisher : Type := MaterialShortageEventDTO → PubOutcome

/-- What the broker interaction inside `RabbitMQPublisher.publish` does once
the try-block is entered: the message is delivered or some exception is
raised by the AMQP machinery. -/
inductive BrokerOutcome
  | delivered
  | throws (e : String)
  deriving DecidableEq, Repr

/-- `RabbitMQPublisher.publish` (`rabbitmq_publisher.py` lines 73-105): when
not connected it logs and returns `False`; otherwise everything the broker
throws is caught, logged and turned into `False`; on delivery it returns
`True`. It never raises. -/
def RabbitMQPublisher.publish (connected : Bool) (broker : BrokerOutcome) : Publisher :=
  fun _event =>
    if connected then
      match broker with
      | .delivered => .returns true
      | .throws _ => .returns false
    else
      .returns false

/-- Result of `CheckAvailabilityUseCase.execute`: the returned DTO together
with the shortage events on which `publish` was invoked and returned, the
`ValueError` raised for an unknown material, or an exception propagated out
of the publisher's `publish` call (which the use case does not catch). -/
inductive CheckResult
  | ok (result : AvailabilityResultDTO) (published : List MaterialShortageEventDTO)
  | valueError (msg : String)
  | publishError (e : String)
  deriving DecidableEq, Repr

/-- `CheckAvailabilityUseCase.execute` (`material_use_cases.py` lines
151-190). The publisher dependency is `some pub` when one was injected;
`now` is the `datetime.utcnow().isoformat()` reading used for the event
timestamp. The `await publish(...)` is not wrapped in any try/except, so a
raising publisher propagates as `publishError`. -/
def CheckAvailabilityUseCase.execute (publisher : Option Publisher) (s : LedgerState)
    (dto : AvailabilityCheckDTO) (request_id : Option String) (publish_shortage : Bool)
    (now : String) : CheckResult :=
  match getMaterial s dto.material_id with
  | none => .valueError ("Material with ID '" ++ dto.material_id ++ "' not found")
  | some material =>
    let is_available := decide (material.available ≥ dto.requested_quantity)
    let shortage := max 0 (dto.requested_quantity - material.available)
    let result : AvailabilityResultDTO :=
      { material_id := material.id, material_name := material.name
        is_available := is_available, available_quantity := material.available
        requested_quantity := dto.requested_quantity, shortage := shortage }
    if shortage > 0 ∧ publish_shortage = true then
      match publisher with
      | none => .ok result []
      | some pub =>
        let event : MaterialShortageEventDTO :=
          { material_id := material.id, material_name := material.name
            current_quantity := material.available
            requested_quantity := dto.requested_quantity, shortage := shortage
            triggered_by_request_id := request_id, timestamp := now }
        match pub event with
        | .raises e => .publishError e
        | .returns _ => .ok result [event]
    else
      .ok result []

/-- `ReserveMaterialUseCase.execute` (`material_use_cases.py` lines 199-229):
not-found, insufficient-quantity and repository-failure branches produce the
source's distinct error messages; the fresh reservation UUID is the explicit
`fresh_id` parameter. -/
def ReserveMaterialUseCase.execute (s : LedgerState) (fresh_id : String)
    (dto : ReserveMaterialDTO) : ReservationResultDTO × LedgerState :=
  match getMaterial s dto.material_id with
  | none =>
    ({ success := false
       error_message := some ("Material with ID '" ++ dto.material_id ++ "' not found") }, s)
  | some material =>
    if material.can_reserve dto.quantity then
      match reserve s fresh_id dto.material_id dto.quantity dto.request_id with
      | (some rid, s2) =>
        ({ success := true, reservation_id := some rid, reserved_quantity := dto.quantity }, s2)
      | (none, s2) =>
        ({ success := false, error_message := some "Failed to create reservation" }, s2)
    else
      ({ success := false
         error_message := some ("Insufficient quantity. Available: "
           ++ toString material.available ++ ", Requested: " ++ toString dto.quantity) }, s)

/-- `ReleaseReservationUseCase.execute` (`material_use_cases.py` lines
232-239): delegates to the repository. -/
def ReleaseReservationUseCase.execute (s : LedgerState) (reservation_id : String) :
    Bool × LedgerState :=
  release_reservation s reservation_id

/-- One ledger-mutating repository operation, for stating the ledger
invariant over arbitrary operation sequences. -/
inductive LedgerOp
  | reserveOp (reservation_id material_id : String) (quantity : Int) (request_id : String)
  | releaseOp (reservation_id : String)
  | adjustOp (movement_id material_id : String) (delta : Int) (reason : String)
      (reference_id : Option String)
  deriving DecidableEq, Repr

/-- Apply one repository operation to the ledger state. -/
def applyOp (s : LedgerState) : LedgerOp → LedgerState
  | .reserveOp rid mid q req => (reserve s rid mid q req).2
  | .releaseOp rid => (release_reservation s rid).2
  | .adjustOp mvid mid d reason ref => (update_quantity s mvid mid d reason ref).2

/-- Apply a sequence of repository operations from left to right. -/
def applyOps (s : LedgerState) (ops : List LedgerOp) : LedgerState :=
  ops.foldl applyOp s

/-- The per-material ledger invariant of the spec: `0 ≤ reserved ≤ quantity`
(which subsumes `quantity ≥ 0`). -/
def MaterialInv (m : Material) : Prop :=
  0 ≤ m.reserved ∧ m.reserved ≤ m.quantity

/-- Ledger-wide invariant: every material satisfies `MaterialInv` and every
stored reservation has a nonnegative quantity. -/
def LedgerInv (s : LedgerState) : Prop :=
  (∀ m ∈ s.materials, MaterialInv m) ∧ (∀ r ∈ s.reservations, 0 ≤ r.quantity)

/-- An operation whose requested quantity respectively delta is nonnegative;
releases carry no quantity of their own. -/
def LedgerOp.nonneg : LedgerOp → Prop
  | .reserveOp _ _ q _ => 0 ≤ q
  | .releaseOp _ => True
  | .adjustOp _ _ d _ _ => 0 ≤ d

/-- `OrderStatus` (`procurement.py`). -/
inductive OrderStatus
  | PENDING
  | ORDERED
  | DELIVERED
  | CANCELLED
  deriving DecidableEq, Repr

/-- The `OrderStatus(value)` enum constructor: `none` models the `ValueError`
raised on an unknown status string. -/
def OrderStatus.ofString : String → Option OrderStatus
  | "PENDING" => some .PENDING
  | "ORDERED" => some .ORDERED
  | "DELIVERED" => some .DELIVERED
  | "CANCELLED" => some .CANCELLED
  | _ => none

/-- `Supplier` entity (`procurement.py`); the float rating is modelled in `ℚ`. -/
structure Supplier where
  id : String
  name : String
  email : String
  phone : String
  rating : ℚ
  is_active : Bool
  deriving DecidableEq, Repr

/-- `SupplierMaterial` offer (`procurement.py`); `Decimal` prices are `ℚ`. -/
structure SupplierMaterial where
  id : String
  supplier_id : String
  material_id : String
  material_name : String
  unit_price : ℚ
  deriving DecidableEq, Repr

/-- `PurchaseOrder` entity (`procurement.py`); delivery dates are abstract
`Nat` instants. -/
structure PurchaseOrder where
  id : String
  material_id : String
  material_name : String
  supplier_id : String
  supplier_name : String
  quantity : Int
  unit_price : ℚ
  total_price : ℚ
  status : OrderStatus
  external_order_id : Option String
  triggered_by_request_id : Option String
  expected_delivery : Option Nat
  deriving DecidableEq, Repr

/-- `PurchaseOrder.calculate_total`: `total_price = unit_price * quantity`. -/
def PurchaseOrder.calculate_total (o : PurchaseOrder) : ℚ × PurchaseOrder :=
  let t := o.unit_price * (o.quantity : ℚ)
  (t, { o with total_price := t })

/-- `PurchaseOrder.mark_as_ordered`. -/
def PurchaseOrder.mark_as_ordered (o : PurchaseOrder) (external_order_id : String)
    (expected_delivery : Nat) : PurchaseOrder :=
  { o with
    status := .ORDERED, external_order_id := some external_order_id,
    expected_delivery := some expected_delivery }

/-- `PurchaseOrder.mark_as_delivered`. -/
def PurchaseOrder.mark_as_delivered (o : PurchaseOrder) : PurchaseOrder :=
  { o with status := .DELIVERED }

/-- `PurchaseOrder.cancel`. -/
def PurchaseOrder.cancel (o : PurchaseOrder) : PurchaseOrder :=
  { o with status := .CANCELLED }

/-- `OrderConfirmation` (`procurement.py`). -/
structure OrderConfirmation where
  order_id : String
  external_order_id : String
  status : String
  estimated_delivery : Option Nat := none
  error_message : Option String := none
  deriving DecidableEq, Repr

/-- `OrderConfirmation.is_success`: status in ("CONFIRMED", "ACCEPTED", "SUCCESS"). -/
def OrderConfirmation.is_success (c : OrderConfirmation) : Bool :=
  c.status == "CONFIRMED" || c.status == "ACCEPTED" || c.status == "SUCCESS"

/-- `ProcessShortageDTO` (`procurement_use_cases.py`). -/
structure ProcessShortageDTO where
  material_id : String
  material_name : String
  shortage_quantity : Int
  triggered_by_request_id : Option String := none
  deriving DecidableEq, Repr

/-- `ProcessShortageResultDTO` (`procurement_use_cases.py`). -/
structure ProcessShortageResultDTO where
  success : Bool
  order_id : Option String := none
  message : String := ""
  supplier_name : Option String := none
  estimated_cost : Option ℚ := none
  deriving DecidableEq, Repr

/-- The dict `supplier_id -> List[SupplierMaterial]` built from the supplier
repository, as an association list. -/
def OffersMap : Type := List (String × List SupplierMaterial)

/-- `supplier_materials.get(supplier.id, [])`. -/
def OffersMap.get (m : OffersMap) (supplier_id : String) : List SupplierMaterial :=
  match m.find? (fun p => p.1 == supplier_id) with
  | some p => p.2
  | none => []

/-- The ordering key used by `candidates.sort(key=lambda x: (-rating, unit_price))`:
`a` sorts no later than `b` iff `a` has the higher rating, or equal rating
and a price no higher. -/
def candLE (a b : Supplier × SupplierMaterial) : Prop :=
  b.1.rating < a.1.rating ∨ (a.1.rating = b.1.rating ∧ a.2.unit_price ≤ b.2.unit_price)

instance : DecidableRel candLE := fun a b => by
  unfold candLE; infer_instance

/-- `SupplierSelector.select_best_supplier` (`procurement_use_cases.py` lines
156-196): skip inactive suppliers, keep those whose offer list contains the
material, stably sort by rating descending then unit price ascending, and
return the first candidate if any. Python's stable `list.sort` is modelled by
`List.insertionSort`, which is stable for `candLE`. -/
def SupplierSelector.select_best_supplier (material_id : String) (suppliers : List Supplier)
    (supplier_materials : OffersMap) : Option (Supplier × SupplierMaterial) :=
  let candidates := suppliers.filterMap (fun supplier =>
    if supplier.is_active then
      match (supplier_materials.get supplier.id).find? (fun m => m.material_id == material_id) with
      | some material_info => some (supplier, material_info)
      | none => none
    else none)
  (candidates.insertionSort candLE).head?

/-- The candidate list assembled by the selector's loop, named so that
theorems can speak about it. -/
def selectorCandidates (material_id : String) (suppliers : List Supplier)
    (supplier_materials : OffersMap) : List (Supplier × SupplierMaterial) :=
  suppliers.filterMap (fun supplier =>
    if supplier.is_active then
      match (supplier_materials.get supplier.id).find? (fun m => m.material_id == material_id) with
      | some material_info => some (supplier, material_info)
      | none => none
    else none)

/-- The selector exactly as the spec sentence words it, for refutation of the
claim that the implementation matches it: filter only on having an offer for
the material (no `is_active` condition), sort the same way, return the first. -/
def selectBestSpecWording (material_id : String) (suppliers : List Supplier)
    (supplier_materials : OffersMap) : Option (Supplier × SupplierMaterial) :=
  let candidates := suppliers.filterMap (fun supplier =>
    match (supplier_materials.get supplier.id).find? (fun m => m.material_id == material_id) with
    | some material_info => some (supplier, material_info)
    | none => none)
  (candidates.insertionSort candLE).head?

/-- `ProcessShortageUseCase.execute` (`procurement_use_cases.py` lines
218-307). Dependencies become parameters: `suppliers` is what
`supplier_repo.get_for_material` returned, `supplier_materials` the offers
fetched per supplier, `place_order` the supplier adapter, `orders` the order
repository's store (a save appends), `new_order_id` the generated UUID and
`now` the `datetime.utcnow()` fallback delivery date. The notification step
(7) only logs and is omitted. A `None` error message prints as "None" inside
the rejected-order f-string. -/
def ProcessShortageUseCase.execute (suppliers : List Supplier)
    (supplier_materials : OffersMap)
    (place_order : Supplier → PurchaseOrder → OrderConfirmation)
    (orders : List PurchaseOrder) (new_order_id : String) (now : Nat)
    (dto : ProcessShortageDTO) : ProcessShortageResultDTO × List PurchaseOrder :=
  if suppliers.isEmpty then
    ({ success := false
       message := "No suppliers found for material " ++ dto.material_name }, orders)
  else
    match SupplierSelector.select_best_supplier dto.material_id suppliers supplier_materials with
    | none =>
      ({ success := false
         message := "No active supplier can provide " ++ dto.material_name }, orders)
    | some (supplier, material_info) =>
      let order0 : PurchaseOrder :=
        { id := new_order_id, material_id := dto.material_id
          material_name := dto.material_name, supplier_id := supplier.id
          supplier_name := supplier.name, quantity := dto.shortage_quantity
          unit_price := material_info.unit_price, total_price := 0
          status := .PENDING, external_order_id := none
          triggered_by_request_id := dto.triggered_by_request_id
          expected_delivery := none }
      let order1 := (order0.calculate_total).2
      let confirmation := place_order supplier order1
      if confirmation.is_success then
        let order2 := order1.mark_as_ordered confirmation.external_order_id
          (confirmation.estimated_delivery.getD now)
        ({ success := true, order_id := some order2.id
           message := "Order placed with " ++ supplier.name
           supplier_name := some supplier.name
           estimated_cost := some order2.total_price }, orders ++ [order2])
      else
        let order2 := { order1 with status := OrderStatus.CANCELLED }
        ({ success := false, order_id := some order2.id
           message := "Supplier rejected order: " ++ (confirmation.error_message.getD "None")
           supplier_name := some supplier.name }, orders ++ [order2])

/-- The order store plus the inventory ledger the procurement service's
inventory client reaches over gRPC. -/
structure ProcurementState where
  orders : List PurchaseOrder
  ledger : LedgerState
  deriving DecidableEq, Repr

/-- Committing a mutated purchase-order row (`order_repo.update`). -/
def updateOrder (orders : List PurchaseOrder) (o : PurchaseOrder) : List PurchaseOrder :=
  orders.map (fun x => if x.id == o.id then o else x)

/-- `UpdateOrderStatusUseCase._update_inventory` (`procurement_use_cases.py`
lines 462-465): its body is `pass` — a stub that performs no ledger update
whatsoever (the docstring's "would call inventory service via gRPC to
increase stock" is unimplemented). Embedded faithfully as the identity on
the ledger. -/
def UpdateOrderStatusUseCase._update_inventory (ledger : LedgerState)
    (_order : PurchaseOrder) : LedgerState :=
  ledger

/-- Result of `UpdateOrderStatusUseCase.execute`: `none` for an unknown
order, the `ValueError` from `OrderStatus(new_status)` on an unknown status
string, or the updated order returned as a DTO. -/
inductive UpdateOrderOutcome
  | orderMissing
  | valueError (s : String)
  | updated (order : PurchaseOrder)
  deriving DecidableEq, Repr

/-- `UpdateOrderStatusUseCase.execute` (`procurement_use_cases.py` lines
434-460): "DELIVERED" marks the order delivered and, when an inventory
client is configured, calls `_update_inventory` (a `pass` stub — the
exception handler around it never fires); "CANCELLED" unconditionally
cancels; any other string is fed to `OrderStatus(...)` and assigned. No
current-status precondition is checked anywhere. -/
def UpdateOrderStatusUseCase.execute (haveInventoryClient : Bool)
    (st : ProcurementState) (order_id new_status : String) :
    UpdateOrderOutcome × ProcurementState :=
  match st.orders.find? (fun o => o.id == order_id) with
  | none => (.orderMissing, st)
  | some order =>
    if new_status == "DELIVERED" then
      let o2 := order.mark_as_delivered
      let ledger2 :=
        if haveInventoryClient then UpdateOrderStatusUseCase._update_inventory st.ledger o2
        else st.ledger
      (.updated o2, { orders := updateOrder st.orders o2, ledger := ledger2 })
    else if new_status == "CANCELLED" then
      let o2 := order.cancel
      (.updated o2, { st with orders := updateOrder st.orders o2 })
    else
      match OrderStatus.ofString new_status with
      | none => (.valueError new_status, st)
      | some ns =>
        let o2 := { order with status := ns }
        (.updated o2, { st with orders := updateOrder st.orders o2 })

/-- The PENDING order built by step 4 of `ProcessShortageUseCase.execute`,
with its total computed, named so theorems can refer to it. -/
def shortageOrder (dto : ProcessShortageDTO) (supplier : Supplier)
    (material_info : SupplierMaterial) (new_order_id : String) : PurchaseOrder :=
  (PurchaseOrder.calculate_total
    { id := new_order_id, material_id := dto.material_id
      material_name := dto.material_name, supplier_id := supplier.id
      supplier_name := supplier.name, quantity := dto.shortage_quantity
      unit_price := material_info.unit_price, total_price := 0
      status := .PENDING, external_order_id := none
      triggered_by_request_id := dto.triggered_by_request_id
      expected_delivery := none }).2

/-- The events a check run published, for stating per-event properties. -/
def publishedEvents : CheckResult → List MaterialShortageEventDTO
  | .ok _ published => published
  | .valueError _ => []
  | .publishError _ => []

/- Concrete sample data for witnesses and counterexamples. -/

/-- The spec's scenario material: quantity 100, reserved 90, threshold 20. -/
def cement : Material :=
  { id := "m1", name := "Cement", unit := .KILOGRAMS, category := "basic"
    quantity := 100, reserved := 90, min_threshold := 20 }

/-- A ledger holding just `cement`. -/
def sampleLedger : LedgerState :=
  { materials := [cement], movements := [], reservations := [] }

/-- A material with part of its stock reserved: quantity 10, reserved 5. -/
def steel : Material :=
  { id := "m2", name := "Steel", unit := .KILOGRAMS, category := "basic"
    quantity := 10, reserved := 5, min_threshold := 2 }

/-- A ledger holding just `steel`. -/
def steelLedger : LedgerState :=
  { materials := [steel], movements := [], reservations := [] }

/-- An already-cancelled reservation over `cement`. -/
def cancelledReservation : Reservation :=
  { id := "r1", material_id := "m1", request_id := "req1", quantity := 5
    status := "CANCELLED" }

/-- An active reservation over `cement`. -/
def activeReservation : Reservation :=
  { id := "r2", material_id := "m1", request_id := "req2", quantity := 30
    status := "ACTIVE" }

/-- Ledger with one cancelled and one active reservation over `cement`. -/
def releaseLedger : LedgerState :=
  { materials := [cement], movements := []
    reservations := [cancelledReservation, activeReservation] }

/-- A publisher implementation whose `publish` raises. -/
def raisingPublisher : Publisher :=
  fun _ => .raises "broker connection refused"

/-- The spec's scenario check: requested 50 against `cement`. -/
def shortageCheck : AvailabilityCheckDTO :=
  { material_id := "m1", requested_quantity := 50 }

/-- An order in status ORDERED over `cement`. -/
def orderedOrder : PurchaseOrder :=
  { id := "o1", material_id := "m1", material_name := "Cement", supplier_id := "s1"
    supplier_name := "Acme", quantity := 50, unit_price := 12, total_price := 600
    status := .ORDERED, external_order_id := some "EXT-1"
    triggered_by_request_id := none, expected_delivery := some 7 }

/-- An order already DELIVERED. -/
def deliveredOrder : PurchaseOrder :=
  { orderedOrder with id := "o2", status := .DELIVERED }

/-- Procurement state holding both sample orders and the sample ledger. -/
def procurementSample : ProcurementState :=
  { orders := [orderedOrder, deliveredOrder], ledger := sampleLedger }

/-- The spec's determinism example, supplier with rating 4.5 / price 120. -/
def supplierA : Supplier :=
  { id := "s-a", name := "Alpha", email := "a@example.com", phone := ""
    rating := mkRat 9 2, is_active := true }

/-- Rating 4.8 / price 130. -/
def supplierB : Supplier :=
  { id := "s-b", name := "Beta", email := "b@example.com", phone := ""
    rating := mkRat 24 5, is_active := true }

/-- Rating 4.8 / price 125. -/
def supplierC : Supplier :=
  { id := "s-c", name := "Gamma", email := "c@example.com", phone := ""
    rating := mkRat 24 5, is_active := true }

/-- Offer of `supplierA` for `cement` at 120. -/
def offerA : SupplierMaterial :=
  { id := "sm-a", supplier_id := "s-a", material_id := "m1", material_name := "Cement"
    unit_price := 120 }

/-- Offer of `supplierB` for `cement` at 130. -/
def offerB : SupplierMaterial :=
  { id := "sm-b", supplier_id := "s-b", material_id := "m1", material_name := "Cement"
    unit_price := 130 }

/-- Offer of `supplierC` for `cement` at 125. -/
def offerC : SupplierMaterial :=
  { id := "sm-c", supplier_id := "s-c", material_id := "m1", material_name := "Cement"
    unit_price := 125 }

/-- The determinism example's supplier list. -/
def exampleSuppliers : List Supplier := [supplierA, supplierB, supplierC]

/-- The determinism example's offers map. -/
def exampleOffers : OffersMap := [("s-a", [offerA]), ("s-b", [offerB]), ("s-c", [offerC])]

/-- An inactive supplier with the best offer on paper. -/
def inactiveSupplier : Supplier :=
  { id := "s-i", name := "Idle", email := "i@example.com", phone := ""
    rating := 5, is_active := false }

/-- The inactive supplier's offer for `cement` at 100. -/
def inactiveOffer : SupplierMaterial :=
  { id := "sm-i", supplier_id := "s-i", material_id := "m1", material_name := "Cement"
    unit_price := 100 }

/-- Offers map holding only the inactive supplier's offer. -/
def inactiveOffers : OffersMap := [("s-i", [inactiveOffer])]

/-- A confirmation the adapter reports as rejected. -/
def rejectConfirmation : OrderConfirmation :=
  { order_id := "", external_order_id := "", status := "REJECTED"
    estimated_delivery := none, error_message := some "out of stock" }

/-- A successful confirmation with an external id and delivery estimate. -/
def acceptConfirmation : OrderConfirmation :=
  { order_id := "", external_order_id := "EXT-9", status := "CONFIRMED"
    estimated_delivery := some 14, error_message := none }

/-- An adapter that rejects every placement. -/
def rejectingAdapter : Supplier → PurchaseOrder → OrderConfirmation :=
  fun _ _ => rejectConfirmation

/-- An adapter that confirms every placement. -/
def acceptingAdapter : Supplier → PurchaseOrder → OrderConfirmation :=
  fun _ _ => acceptConfirmation

/-- The availability result a check of `requested` against material `m`
computes (`AvailabilityResultDTO` as built in `execute`). -/
def checkResultFor (m : Material) (requested : Int) : AvailabilityResultDTO :=
  { material_id := m.id, material_name := m.name
    is_available := decide (m.available ≥ requested)
    available_quantity := m.available, requested_quantity := requested
    shortage := max 0 (requested - m.available) }

/-- The shortage event a check of `requested` against material `m` builds. -/
def checkEventFor (m : Material) (requested : Int) (request_id : Option String)
    (now : String) : MaterialShortageEventDTO :=
  { material_id := m.id, material_name := m.name
    current_quantity := m.available, requested_quantity := requested
    shortage := max 0 (requested - m.available)
    triggered_by_request_id := request_id, timestamp := now }

/-- The availability DTO a check run handed back, if it returned one. -/
def CheckResult.returnedResult : CheckResult → Option AvailabilityResultDTO
  | .ok r _ => some r
  | .valueError _ => none
  | .publishError _ => none

/-- The shortage event emitted by the spec's scenario check (requested 50
against `cement`). -/
def sampleShortageEvent : MaterialShortageEventDTO :=
  { material_id := "m1", material_name := "Cement", current_quantity := 10
    requested_quantity := 50, shortage := 40
    triggered_by_request_id := none, timestamp := "t0" }

/-! ### Helper lemmas about the ledger state -/

instance (m : Material) : Decidable (MaterialInv m) := by
  unfold MaterialInv; infer_instance

instance (s : LedgerState) : Decidable (LedgerInv s) := by
  unfold LedgerInv; infer_instance

instance (op : LedgerOp) : Decidable op.nonneg := by
  cases op <;> simp only [LedgerOp.nonneg] <;> infer_instance

theorem find?_map_of_pred {α : Type} (g : α → α) (p : α → Bool) (l : List α) (a : α)
    (hp : ∀ x, p (g x) = p x) (h : l.find? p = some a) :
    (l.map g).find? p = some (g a) := by
  rw [List.find?_map, show p ∘ g = p from funext hp, h]
  rfl

theorem getMaterial_mem {s : LedgerState} {i : String} {m : Material}
    (h : getMaterial s i = some m) : m ∈ s.materials :=
  List.mem_of_find?_eq_some h

theorem getMaterial_id {s : LedgerState} {i : String} {m : Material}
    (h : getMaterial s i = some m) : m.id = i := by
  have h' : List.find? (fun x : Material => x.id == i) s.materials = some m := h
  simpa using List.find?_some h' 

theorem getMaterial_setMaterial {s : LedgerState} {i : String} {m : Material}
    (m' : Material) (h : getMaterial s i = some m) (hid : m'.id = m.id) :
    getMaterial (setMaterial s m') i = some m' := by
  have hmi : m.id = i := getMaterial_id h
  have h' : List.find? (fun x : Material => x.id == i) s.materials = some m := h
  have hkey : ∀ x : Material,
      (fun x : Material => x.id == i) (if x.id == m'.id then m' else x) =
        (fun x : Material => x.id == i) x := by
    intro x
    by_cases hx : x.id = m'.id
    · simp [hx, hid, hmi]
    · simp [hx]
  have hfind := find?_map_of_pred (fun x => if x.id == m'.id then m' else x)
    (fun x : Material => x.id == i) s.materials m hkey h'
  have hgm : (if m.id == m'.id then m' else m) = m' := by
    simp [hid]
  show List.find? (fun x : Material => x.id == i)
      (s.materials.map fun x => if x.id == m'.id then m' else x) = some m'
  rw [hfind]
  exact congrArg some hgm

theorem getReservation_mem {s : LedgerState} {i : String} {r : Reservation}
    (h : getReservation s i = some r) : r ∈ s.reservations :=
  List.mem_of_find?_eq_some h

theorem getReservation_id {s : LedgerState} {i : String} {r : Reservation}
    (h : getReservation s i = some r) : r.id = i := by
  have h' : List.find? (fun x : Reservation => x.id == i) s.reservations = some r := h
  simpa using List.find?_some h' 

theorem getReservation_setStatus {s : LedgerState} {rid st : String} {r : Reservation}
    (h : getReservation s rid = some r) :
    getReservation (setReservationStatus s rid st) rid = some { r with status := st } := by
  have h' : List.find? (fun x : Reservation => x.id == rid) s.reservations = some r := h
  have hrid : r.id = rid := getReservation_id h
  have hkey : ∀ x : Reservation,
      (fun x : Reservation => x.id == rid)
        (if x.id == rid then { x with status := st } else x) =
        (fun x : Reservation => x.id == rid) x := by
    intro x
    by_cases hx : x.id = rid
    · simp [hx]
    · simp [hx]
  have hfind := find?_map_of_pred
    (fun x => if x.id == rid then { x with status := st } else x)
    (fun x : Reservation => x.id == rid) s.reservations r hkey h'
  have hgr : (if r.id == rid then { r with status := st } else r) = { r with status := st } := by
    simp [hrid]
  show List.find? (fun x : Reservation => x.id == rid)
      (s.reservations.map fun x => if x.id == rid then { x with status := st } else x) =
      some { r with status := st }
  rw [hfind]
  exact congrArg some hgr

theorem setMaterial_materialInv {s : LedgerState} {m' : Material}
    (h : ∀ m ∈ s.materials, MaterialInv m) (h' : MaterialInv m') :
    ∀ x ∈ (setMaterial s m').materials, MaterialInv x := by
  intro x hx
  simp only [setMaterial, List.mem_map] at hx
  obtain ⟨y, hy, hxy⟩ := hx
  by_cases hc : (y.id == m'.id) = true
  · rw [← hxy, if_pos hc]; exact h'
  · rw [← hxy, if_neg hc]; exact h y hy

/-! ### C1: the ledger invariant under reserve / release / adjust sequences -/

theorem applyOp_ledgerInv (s : LedgerState) (op : LedgerOp)
    (hs : LedgerInv s) (hop : op.nonneg) : LedgerInv (applyOp s op) := by
  obtain ⟨hm, hr⟩ := hs
  cases op with
  | reserveOp rid mid q req =>
    show LedgerInv (reserve s rid mid q req).2
    unfold reserve
    cases hfind : getMaterial s mid with
    | none => exact ⟨hm, hr⟩
    | some m =>
      simp only
      split
      · exact ⟨hm, hr⟩
      · rename_i hav
        have hminv := hm m (getMaterial_mem hfind)
        have h0 : (0 : Int) ≤ m.reserved := hminv.1
        have h1 : m.reserved ≤ m.quantity := hminv.2
        have hq : (0 : Int) ≤ q := hop
        refine ⟨?_, ?_⟩
        · refine setMaterial_materialInv hm ⟨?_, ?_⟩
          · show (0 : Int) ≤ m.reserved + q
            omega
          · show m.reserved + q ≤ m.quantity
            omega
        · intro r hrr
          simp only [setMaterial, List.mem_append, List.mem_singleton] at hrr
          rcases hrr with hrr | hrr
          · exact hr r hrr
          · subst hrr; exact hq
  | releaseOp rid =>
    show LedgerInv (release_reservation s rid).2
    unfold release_reservation
    cases hfind : getReservation s rid with
    | none => exact ⟨hm, hr⟩
    | some r =>
      simp only
      split
      · rename_i hactive
        have hrq : (0 : Int) ≤ r.quantity := hr r (getReservation_mem hfind)
        constructor
        · intro x hx
          simp only [setReservationStatus] at hx
          cases hmat : getMaterial s r.material_id with
          | none =>
            simp only [hmat] at hx
            exact hm x hx
          | some m =>
            simp only [hmat] at hx
            have hminv := hm m (getMaterial_mem hmat)
            have h0 : (0 : Int) ≤ m.reserved := hminv.1
            have h1 : m.reserved ≤ m.quantity := hminv.2
            refine setMaterial_materialInv hm ⟨?_, ?_⟩ x hx
            · show (0 : Int) ≤ max 0 (m.reserved - r.quantity)
              exact le_max_left 0 _
            · show max 0 (m.reserved - r.quantity) ≤ m.quantity
              exact max_le (by omega) (by omega)
        · intro x hx
          simp only [setReservationStatus, List.mem_map] at hx
          obtain ⟨y, hy, hxy⟩ := hx
          have hyq : (0 : Int) ≤ y.quantity := by
            cases hmat : getMaterial s r.material_id with
            | none =>
              simp only [hmat] at hy
              exact hr y hy
            | some m =>
              simp only [hmat, setMaterial] at hy
              exact hr y hy
          by_cases hc : (y.id == rid) = true
          · rw [← hxy, if_pos hc]; exact hyq
          · rw [← hxy, if_neg hc]; exact hyq
      · exact ⟨hm, hr⟩
  | adjustOp mvid mid d reason ref =>
    show LedgerInv (update_quantity s mvid mid d reason ref).2
    unfold update_quantity
    cases hfind : getMaterial s mid with
    | none => exact ⟨hm, hr⟩
    | some m =>
      simp only
      have hminv := hm m (getMaterial_mem hfind)
      have h0 : (0 : Int) ≤ m.reserved := hminv.1
      have h1 : m.reserved ≤ m.quantity := hminv.2
      have hd : (0 : Int) ≤ d := hop
      refine ⟨?_, ?_⟩
      · refine setMaterial_materialInv hm ⟨?_, ?_⟩
        · show (0 : Int) ≤ m.reserved
          exact h0
        · show m.reserved ≤ max 0 (m.quantity + d)
          exact le_trans (by omega) (le_max_right 0 (m.quantity + d))
      · intro r hrr
        simp only [setMaterial] at hrr
        exact hr r hrr

/-- C1, counterexample: a ledger state satisfying the claimed invariant
`0 ≤ reserved ≤ quantity` (steel: quantity 10, reserved 5) on which a single
`update_quantity` with delta −8 — the repository's `adjustQuantity` — leaves
the material at quantity 2 with reserved still 5, i.e. `reserved > quantity`:
the operation clamps quantity at zero but never touches `reserved`, so the
claimed invariant does not survive negative adjustments. -/
theorem C1_counterexample :
    LedgerInv steelLedger ∧
    getMaterial (applyOp steelLedger (.adjustOp "mv1" "m2" (-8) "MANUAL_ADJUSTMENT" none))
      "m2" = some { steel with quantity := 2 } ∧
    ¬ MaterialInv { steel with quantity := 2 } :=
  ⟨by decide, by decide, by decide⟩

/-- C1, amended: starting from any state in which every material satisfies
`0 ≤ reserved ≤ quantity` and every stored reservation quantity is
nonnegative, any sequence of repository operations (reserve, release,
adjustQuantity) whose reserve quantities and adjust deltas are nonnegative
preserves that invariant, and in particular `quantity` never goes negative.
The original claim fails only for `adjustQuantity` with a negative delta,
which can leave `reserved > quantity` (see the counterexample). -/
theorem C1_amended_invariant (s : LedgerState) (ops : List LedgerOp)
    (hs : LedgerInv s) (hops : ∀ op ∈ ops, op.nonneg) :
    LedgerInv (applyOps s ops) := by
  induction ops generalizing s with
  | nil => exact hs
  | cons op ops ih =>
    exact ih (applyOp s op) (applyOp_ledgerInv s op hs (hops op (List.mem_cons_self op ops)))
      (fun o ho => hops o (List.mem_cons_of_mem op ho))

/-- Witness for `C1_amended_invariant`: a concrete reserve / adjust /
release run on the sample ledger keeps the invariant. -/
theorem C1_amended_invariant_witness :
    LedgerInv (applyOps sampleLedger
      [.reserveOp "r9" "m1" 5 "req9",
       .adjustOp "mv9" "m1" 40 "PURCHASE" none,
       .releaseOp "r9"]) :=
  C1_amended_invariant sampleLedger
    [.reserveOp "r9" "m1" 5 "req9",
     .adjustOp "mv9" "m1" 40 "PURCHASE" none,
     .releaseOp "r9"]
    (by decide) (by decide)


/-! ### C6: the reserve use case -/

/-- C6: the reserve use case fails with the not-found error message when the
material id is unknown; for an existing material satisfying the ledger
invariant `0 ≤ reserved ≤ quantity` and a nonnegative requested quantity it
succeeds exactly when `available ≥ quantity`; on success it adds exactly the
requested quantity to `reserved` and appends an ACTIVE reservation whose id
it returns, and on insufficient stock it returns the insufficient-quantity
error message and leaves the state completely unchanged. -/
theorem C6_reserve (s : LedgerState) (fresh_id : String) (dto : ReserveMaterialDTO) :
    (getMaterial s dto.material_id = none →
      ReserveMaterialUseCase.execute s fresh_id dto =
        ({ success := false, reservation_id := none, reserved_quantity := 0
           error_message := some ("Material with ID '" ++ dto.material_id ++ "' not found") },
         s)) ∧
    (∀ m, getMaterial s dto.material_id = some m → 0 ≤ m.reserved → m.reserved ≤ m.quantity →
      0 ≤ dto.quantity →
      (((ReserveMaterialUseCase.execute s fresh_id dto).1.success = true) ↔
        dto.quantity ≤ m.available) ∧
      (dto.quantity ≤ m.available →
        ReserveMaterialUseCase.execute s fresh_id dto =
          ({ success := true, reservation_id := some fresh_id
             reserved_quantity := dto.quantity, error_message := none },
           { setMaterial s { m with reserved := m.reserved + dto.quantity } with
               reservations := s.reservations ++
                 [{ id := fresh_id, material_id := dto.material_id
                    request_id := dto.request_id, quantity := dto.quantity
                    status := "ACTIVE" }] })) ∧
      (¬ dto.quantity ≤ m.available →
        ReserveMaterialUseCase.execute s fresh_id dto =
          ({ success := false, reservation_id := none, reserved_quantity := 0
             error_message := some ("Insufficient quantity. Available: "
               ++ toString m.available ++ ", Requested: " ++ toString dto.quantity) },
           s))) := by
  refine ⟨?_, ?_⟩
  · intro hnone
    unfold ReserveMaterialUseCase.execute
    rw [hnone]
  · intro m hm h0 h1 hq
    by_cases hle : dto.quantity ≤ m.available
    · have hcan : m.can_reserve dto.quantity = true := by
        unfold Material.can_reserve
        simpa using hle
      have havg : ¬ (m.quantity - m.reserved < dto.quantity) := by
        unfold Material.available at hle
        omega
      have hexec : ReserveMaterialUseCase.execute s fresh_id dto =
          ({ success := true, reservation_id := some fresh_id
             reserved_quantity := dto.quantity, error_message := none },
           { setMaterial s { m with reserved := m.reserved + dto.quantity } with
               reservations := s.reservations ++
                 [{ id := fresh_id, material_id := dto.material_id
                    request_id := dto.request_id, quantity := dto.quantity
                    status := "ACTIVE" }] }) := by
        unfold ReserveMaterialUseCase.execute reserve
        simp only [hm, hcan, if_true, if_neg havg]
        rfl
      refine ⟨?_, fun _ => hexec, fun hcontra => absurd hle hcontra⟩
      rw [hexec]
      simpa using hle
    · have hcan : m.can_reserve dto.quantity = false := by
        unfold Material.can_reserve
        simpa using hle
      have hexec : ReserveMaterialUseCase.execute s fresh_id dto =
          ({ success := false, reservation_id := none, reserved_quantity := 0
             error_message := some ("Insufficient quantity. Available: "
               ++ toString m.available ++ ", Requested: " ++ toString dto.quantity) },
           s) := by
        unfold ReserveMaterialUseCase.execute
        simp only [hm, hcan, Bool.false_eq_true, if_false]
      refine ⟨?_, fun hcontra => absurd hcontra hle, fun _ => hexec⟩
      rw [hexec]
      simpa using hle

/-- Witness for `C6_reserve`: reserving 5 of the sample material (quantity
100, reserved 90, available 10) succeeds and moves `reserved` to 95. -/
theorem C6_reserve_witness :
    ReserveMaterialUseCase.execute sampleLedger "res-1"
      { material_id := "m1", quantity := 5, request_id := "req-9" } =
      ({ success := true, reservation_id := some "res-1"
         reserved_quantity := 5, error_message := none },
       { setMaterial sampleLedger { cement with reserved := 95 } with
           reservations := sampleLedger.reservations ++
             [{ id := "res-1", material_id := "m1", request_id := "req-9"
                quantity := 5, status := "ACTIVE" }] }) := by
  have h := (C6_reserve sampleLedger "res-1"
    { material_id := "m1", quantity := 5, request_id := "req-9" }).2 cement
    (by decide) (by decide) (by decide) (by decide)
  exact h.2.1 (by decide)

/-! ### C7: releasing reservations -/

/-- C7, counterexample: releasing the already-CANCELLED reservation "r1" and
releasing the unknown id "ghost" produce the same outcome — the bare failure
value `false` with the state unchanged — so `release_reservation` does not
return the distinct `Error(AlreadyInactive)` and `Error(NotFound)` outcomes
the claim describes (the gRPC layer likewise reports one combined
"Reservation not found or already released" message). -/
theorem C7_counterexample :
    getReservation releaseLedger "r1" = some cancelledReservation ∧
    release_reservation releaseLedger "r1" = (false, releaseLedger) ∧
    getReservation releaseLedger "ghost" = none ∧
    release_reservation releaseLedger "ghost" = (false, releaseLedger) :=
  ⟨by decide, by decide, by decide, by decide⟩

/-- C7, amended: release on an ACTIVE reservation whose quantity fits in the
material's `reserved` sets the reservation's status to CANCELLED and
decrements the material's `reserved` by the reservation's quantity, leaving
the audit trail unchanged; release on a reservation that is not ACTIVE, or
on an unknown reservation id, returns one undifferentiated failure value
`false` (not distinct NotFound / AlreadyInactive errors) and leaves the
state unchanged, in particular never decrementing `reserved` again. -/
theorem C7_amended_release (s : LedgerState) (rid : String) :
    (getReservation s rid = none → release_reservation s rid = (false, s)) ∧
    (∀ r, getReservation s rid = some r → r.status ≠ "ACTIVE" →
      release_reservation s rid = (false, s)) ∧
    (∀ r m, getReservation s rid = some r → r.status = "ACTIVE" →
      getMaterial s r.material_id = some m → r.quantity ≤ m.reserved →
      (release_reservation s rid).1 = true ∧
      getMaterial (release_reservation s rid).2 r.material_id =
        some { m with reserved := m.reserved - r.quantity } ∧
      getReservation (release_reservation s rid).2 rid =
        some { r with status := "CANCELLED" } ∧
      (release_reservation s rid).2.movements = s.movements) := by
  refine ⟨?_, ?_, ?_⟩
  · intro hnone
    unfold release_reservation
    rw [hnone]
  · intro r hr hna
    have hb : (r.status == "ACTIVE") = false := by simpa using hna
    unfold release_reservation
    rw [hr]
    simp only [hb, Bool.false_eq_true, if_false]
  · intro r m hr hact hmat hfit
    have hb : (r.status == "ACTIVE") = true := by simpa using hact
    have hmax : max 0 (m.reserved - r.quantity) = m.reserved - r.quantity := by omega
    have hexec : release_reservation s rid =
        (true, setReservationStatus
          (setMaterial s { m with reserved := m.reserved - r.quantity }) rid "CANCELLED") := by
      unfold release_reservation
      rw [hr]
      simp only [hb, if_true, hmat, hmax]
    refine ⟨by rw [hexec], ?_, ?_, ?_⟩
    · rw [hexec]
      show getMaterial (setMaterial s { m with reserved := m.reserved - r.quantity })
        r.material_id = some { m with reserved := m.reserved - r.quantity }
      exact getMaterial_setMaterial _ hmat rfl
    · rw [hexec]
      have h1 : getReservation (setMaterial s { m with reserved := m.reserved - r.quantity })
          rid = some r := hr
      exact getReservation_setStatus h1
    · rw [hexec]
      rfl

/-- Witness for `C7_amended_release`: releasing the ACTIVE reservation "r2"
(30 units of the sample material) succeeds, drops `reserved` from 90 to 60
and marks the reservation CANCELLED. -/
theorem C7_amended_release_witness :
    (release_reservation releaseLedger "r2").1 = true ∧
    getMaterial (release_reservation releaseLedger "r2").2 "m1" =
      some { cement with reserved := 60 } ∧
    getReservation (release_reservation releaseLedger "r2").2 "r2" =
      some { activeReservation with status := "CANCELLED" } := by
  have h := (C7_amended_release releaseLedger "r2").2.2 activeReservation cement
    (by decide) (by decide) (by decide) (by decide)
  exact ⟨h.1, h.2.1, h.2.2.1⟩

/-! ### C9 / C10 / C4: the availability check -/

theorem check_exec_cond (pub : Publisher) (s : LedgerState) (dto : AvailabilityCheckDTO)
    (request_id : Option String) (ps : Bool) (now : String) (m : Material)
    (hm : getMaterial s dto.material_id = some m)
    (hcond : max 0 (dto.requested_quantity - m.available) > 0 ∧ ps = true) :
    CheckAvailabilityUseCase.execute (some pub) s dto request_id ps now =
      (match pub (checkEventFor m dto.requested_quantity request_id now) with
       | .raises e => .publishError e
       | .returns _ => .ok (checkResultFor m dto.requested_quantity)
           [checkEventFor m dto.requested_quantity request_id now]) := by
  unfold CheckAvailabilityUseCase.execute
  simp only [hm]
  rw [if_pos hcond]
  rfl

theorem check_exec_notcond (publisher : Option Publisher) (s : LedgerState)
    (dto : AvailabilityCheckDTO) (request_id : Option String) (ps : Bool) (now : String)
    (m : Material) (hm : getMaterial s dto.material_id = some m)
    (hcond : ¬ (max 0 (dto.requested_quantity - m.available) > 0 ∧ ps = true)) :
    CheckAvailabilityUseCase.execute publisher s dto request_id ps now =
      .ok (checkResultFor m dto.requested_quantity) [] := by
  unfold CheckAvailabilityUseCase.execute
  simp only [hm]
  rw [if_neg hcond]
  rfl

/-- C9: for an existing material and the configured RabbitMQ publisher
(whatever the broker does), the check returns `is_available = (available ≥
requested)` and `shortage = max(0, requested − available)`, and publishes
exactly one shortage event — carrying that shortage — iff the shortage is
positive. -/
theorem C9_check_shortage_event (connected : Bool) (broker : BrokerOutcome)
    (s : LedgerState) (dto : AvailabilityCheckDTO) (request_id : Option String)
    (now : String) (m : Material) (hm : getMaterial s dto.material_id = some m) :
    (0 < max 0 (dto.requested_quantity - m.available) →
      CheckAvailabilityUseCase.execute (some (RabbitMQPublisher.publish connected broker))
        s dto request_id true now =
        .ok (checkResultFor m dto.requested_quantity)
          [checkEventFor m dto.requested_quantity request_id now]) ∧
    (max 0 (dto.requested_quantity - m.available) ≤ 0 →
      CheckAvailabilityUseCase.execute (some (RabbitMQPublisher.publish connected broker))
        s dto request_id true now =
        .ok (checkResultFor m dto.requested_quantity) []) ∧
    (checkResultFor m dto.requested_quantity).is_available =
      decide (dto.requested_quantity ≤ m.available) ∧
    (checkEventFor m dto.requested_quantity request_id now).shortage =
      max 0 (dto.requested_quantity - m.available) := by
  refine ⟨?_, ?_, rfl, rfl⟩
  · intro hpos
    rw [check_exec_cond (RabbitMQPublisher.publish connected broker) s dto request_id true
      now m hm ⟨hpos, rfl⟩]
    unfold RabbitMQPublisher.publish
    cases connected <;> cases broker <;> rfl
  · intro hle
    exact check_exec_notcond _ s dto request_id true now m hm
      (fun hcontra => absurd hcontra.1 (not_lt.mpr hle))

/-- Witness for `C9_check_shortage_event`: the spec's scenario — material
with quantity 100, reserved 90, check of 50 — yields `is_available = false`,
`shortage = 40` and exactly one published event with shortage 40. -/
theorem C9_check_shortage_event_witness :
    CheckAvailabilityUseCase.execute
      (some (RabbitMQPublisher.publish true BrokerOutcome.delivered))
      sampleLedger shortageCheck none true "t0" =
      .ok { material_id := "m1", material_name := "Cement", is_available := false
            available_quantity := 10, requested_quantity := 50, shortage := 40 }
        [sampleShortageEvent] := by
  have h := (C9_check_shortage_event true BrokerOutcome.delivered sampleLedger shortageCheck
    none "t0" cement (by decide)).1 (by decide)
  exact h

/-- C10: every shortage event a check publishes — through any injected
publisher — carries `current_quantity = max(0, quantity − reserved)`, the
material's available quantity, not the raw on-hand quantity. -/
theorem C10_event_current_quantity (pub : Publisher) (s : LedgerState)
    (dto : AvailabilityCheckDTO) (request_id : Option String) (ps : Bool) (now : String)
    (m : Material) (hm : getMaterial s dto.material_id = some m) :
    ∀ e ∈ publishedEvents
        (CheckAvailabilityUseCase.execute (some pub) s dto request_id ps now),
      e.current_quantity = max 0 (m.quantity - m.reserved) := by
  intro e he
  by_cases hcond : max 0 (dto.requested_quantity - m.available) > 0 ∧ ps = true
  · rw [check_exec_cond pub s dto request_id ps now m hm hcond] at he
    cases hp : pub (checkEventFor m dto.requested_quantity request_id now) with
    | raises e2 =>
      rw [hp] at he
      simp [publishedEvents] at he
    | returns b =>
      rw [hp] at he
      simp only [publishedEvents, List.mem_singleton] at he
      subst he
      rfl
  · rw [check_exec_notcond (some pub) s dto request_id ps now m hm hcond] at he
    simp [publishedEvents] at he

/-- Witness for `C10_event_current_quantity`: the scenario check publishes
one event whose `current_quantity` is 10 (the available quantity), not the
raw quantity 100. -/
theorem C10_event_current_quantity_witness :
    publishedEvents (CheckAvailabilityUseCase.execute
      (some (RabbitMQPublisher.publish true BrokerOutcome.delivered))
      sampleLedger shortageCheck none true "t0") = [sampleShortageEvent] ∧
    sampleShortageEvent.current_quantity = 10 ∧
    sampleShortageEvent.current_quantity ≠ cement.quantity := by
  refine ⟨by decide, ?_, by decide⟩
  have h := C10_event_current_quantity
    (RabbitMQPublisher.publish true BrokerOutcome.delivered) sampleLedger shortageCheck
    none true "t0" cement (by decide) sampleShortageEvent (by decide)
  exact h

/-- C4, counterexample: with a publisher implementation whose `publish`
raises, the check use case — which wraps the `await publish(...)` in no
try/except — propagates the exception instead of returning its availability
result: on the scenario ledger it yields `publishError`, and no availability
result reaches the caller. -/
theorem C4_counterexample :
    CheckAvailabilityUseCase.execute (some raisingPublisher) sampleLedger shortageCheck
      none true "t0" = .publishError "broker connection refused" ∧
    (CheckAvailabilityUseCase.execute (some raisingPublisher) sampleLedger shortageCheck
      none true "t0").returnedResult = none :=
  ⟨by decide, by decide⟩

/-- C4, amended: with the publisher implementation actually shipped
(`RabbitMQPublisher.publish`, which catches every broker error internally,
logs it and returns `False`), the check always hands its availability result
back to the caller, whatever the broker does — the publish failure is
swallowed inside the publisher, not inside the check use case, and an
exception actually raised by a publisher would propagate (see the
counterexample). -/
theorem C4_amended_publish_failure (connected : Bool) (broker : BrokerOutcome)
    (s : LedgerState) (dto : AvailabilityCheckDTO) (request_id : Option String)
    (ps : Bool) (now : String) (m : Material)
    (hm : getMaterial s dto.material_id = some m) :
    (CheckAvailabilityUseCase.execute (some (RabbitMQPublisher.publish connected broker))
      s dto request_id ps now).returnedResult =
      some (checkResultFor m dto.requested_quantity) := by
  by_cases hcond : max 0 (dto.requested_quantity - m.available) > 0 ∧ ps = true
  · rw [check_exec_cond _ s dto request_id ps now m hm hcond]
    unfold RabbitMQPublisher.publish
    cases connected <;> cases broker <;> rfl
  · rw [check_exec_notcond _ s dto request_id ps now m hm hcond]
    rfl

/-- Witness for `C4_amended_publish_failure`: even when the broker throws,
the scenario check still returns its availability result. -/
theorem C4_amended_publish_failure_witness :
    (CheckAvailabilityUseCase.execute
      (some (RabbitMQPublisher.publish true (BrokerOutcome.throws "network down")))
      sampleLedger shortageCheck none true "t0").returnedResult =
      some { material_id := "m1", material_name := "Cement", is_available := false
             available_quantity := 10, requested_quantity := 50, shortage := 40 } := by
  have h := C4_amended_publish_failure true (BrokerOutcome.throws "network down")
    sampleLedger shortageCheck none true "t0" cement (by decide)
  exact h

/-! ### C2 / C3: the order status use case -/

/-- C2, code_bug: the saga's compensating step is unimplemented in the
source. `_update_inventory` is a `pass` stub, so marking a found ORDERED
order DELIVERED — inventory client configured or not — sets and stores the
DELIVERED status but leaves the Material Ledger completely unchanged: no
quantity increase and no PURCHASE StockMovement ever happens, contrary to
the claim's `adjustQuantity(material_id, +quantity, PURCHASE, orderId)`
feedback step. -/
theorem C2_mark_delivered_no_ledger_update (haveInventoryClient : Bool)
    (st : ProcurementState) (order_id : String) (o : PurchaseOrder)
    (hfind : st.orders.find? (fun x => x.id == order_id) = some o)
    (hstatus : o.status = OrderStatus.ORDERED) :
    (UpdateOrderStatusUseCase.execute haveInventoryClient st order_id "DELIVERED").1 =
      .updated { o with status := OrderStatus.DELIVERED } ∧
    (UpdateOrderStatusUseCase.execute haveInventoryClient st order_id "DELIVERED").2.ledger =
      st.ledger ∧
    (UpdateOrderStatusUseCase.execute haveInventoryClient st order_id "DELIVERED").2.orders =
      updateOrder st.orders { o with status := OrderStatus.DELIVERED } := by
  have hexec : UpdateOrderStatusUseCase.execute haveInventoryClient st order_id "DELIVERED" =
      (.updated { o with status := OrderStatus.DELIVERED },
       { orders := updateOrder st.orders { o with status := OrderStatus.DELIVERED }
         ledger := st.ledger }) := by
    unfold UpdateOrderStatusUseCase.execute UpdateOrderStatusUseCase._update_inventory
      PurchaseOrder.mark_as_delivered
    simp only [hfind]
    cases haveInventoryClient <;> rfl
  exact ⟨by rw [hexec], by rw [hexec], by rw [hexec]⟩

/-- Witness for `C2_mark_delivered_no_ledger_update`: delivering the sample
ORDERED order "o1" (50 units of material m1, inventory client configured)
yields status DELIVERED while the ledger still holds quantity 100 and an
empty audit trail — the claimed stock increase never happens. -/
theorem C2_mark_delivered_no_ledger_update_witness :
    (UpdateOrderStatusUseCase.execute true procurementSample "o1" "DELIVERED").1 =
      .updated { orderedOrder with status := OrderStatus.DELIVERED } ∧
    (UpdateOrderStatusUseCase.execute true procurementSample "o1" "DELIVERED").2.ledger =
      sampleLedger ∧
    getMaterial
      (UpdateOrderStatusUseCase.execute true procurementSample "o1" "DELIVERED").2.ledger
      "m1" = some cement ∧
    (UpdateOrderStatusUseCase.execute true procurementSample "o1" "DELIVERED").2.ledger.movements
      = [] := by
  have h := C2_mark_delivered_no_ledger_update true procurementSample "o1" orderedOrder
    (by decide) (by decide)
  exact ⟨h.1, h.2.1, by rw [h.2.1]; decide, by rw [h.2.1]; rfl⟩

/-- C3, counterexample: the use case cancels a DELIVERED order without any
transition check — on the sample state, cancelling the DELIVERED order "o2"
succeeds and rewrites its status to CANCELLED instead of returning an
InvalidTransition error and leaving the status unchanged. -/
theorem C3_counterexample :
    deliveredOrder.status = OrderStatus.DELIVERED ∧
    (UpdateOrderStatusUseCase.execute false procurementSample "o2" "CANCELLED").1 =
      .updated { deliveredOrder with status := OrderStatus.CANCELLED } ∧
    (UpdateOrderStatusUseCase.execute false procurementSample "o2" "CANCELLED").2.orders.find?
      (fun x => x.id == "o2") = some { deliveredOrder with status := OrderStatus.CANCELLED } :=
  ⟨by decide, by decide, by decide⟩

/-- C3, amended: a cancel (new_status "CANCELLED") succeeds from every
current status — the use case unconditionally sets the found order's status
to CANCELLED and stores it, with no InvalidTransition error anywhere (only
an unknown order id fails, with `none`). -/
theorem C3_amended_cancel (hic : Bool) (st : ProcurementState) (order_id : String) :
    (st.orders.find? (fun x => x.id == order_id) = none →
      UpdateOrderStatusUseCase.execute hic st order_id "CANCELLED" =
        (.orderMissing, st)) ∧
    (∀ o, st.orders.find? (fun x => x.id == order_id) = some o →
      UpdateOrderStatusUseCase.execute hic st order_id "CANCELLED" =
        (.updated { o with status := OrderStatus.CANCELLED },
         { st with orders := updateOrder st.orders { o with status := OrderStatus.CANCELLED } })) := by
  constructor
  · intro hnone
    unfold UpdateOrderStatusUseCase.execute
    rw [hnone]
  · intro o hfind
    have hb1 : (("CANCELLED" : String) == "DELIVERED") = false := by decide
    have hb2 : (("CANCELLED" : String) == "CANCELLED") = true := by decide
    unfold UpdateOrderStatusUseCase.execute PurchaseOrder.cancel
    simp only [hfind, hb1, hb2, Bool.false_eq_true, if_false, if_true]

/-- Witness for `C3_amended_cancel`: cancelling the DELIVERED sample order
succeeds and stores it as CANCELLED. -/
theorem C3_amended_cancel_witness :
    UpdateOrderStatusUseCase.execute false procurementSample "o2" "CANCELLED" =
      (.updated { deliveredOrder with status := OrderStatus.CANCELLED },
       { procurementSample with
           orders := updateOrder procurementSample.orders
             { deliveredOrder with status := OrderStatus.CANCELLED } }) :=
  (C3_amended_cancel false procurementSample "o2").2 deliveredOrder (by decide)

/-! ### C8: the supplier selector -/

instance : IsTrans (Supplier × SupplierMaterial) candLE := by
  constructor
  intro a b c hab hbc
  unfold candLE at hab hbc ⊢
  rcases hab with h1 | ⟨h1, h2⟩ <;> rcases hbc with h3 | ⟨h3, h4⟩
  · exact Or.inl (lt_trans h3 h1)
  · exact Or.inl (h3 ▸ h1)
  · exact Or.inl (lt_of_lt_of_eq h3 h1.symm)
  · exact Or.inr ⟨h1.trans h3, le_trans h2 h4⟩

instance : IsTotal (Supplier × SupplierMaterial) candLE := by
  constructor
  intro a b
  unfold candLE
  rcases lt_trichotomy a.1.rating b.1.rating with h | h | h
  · exact Or.inr (Or.inl h)
  · rcases le_total a.2.unit_price b.2.unit_price with hp | hp
    · exact Or.inl (Or.inr ⟨h, hp⟩)
    · exact Or.inr (Or.inr ⟨h.symm, hp⟩)
  · exact Or.inl (Or.inl h)

/-- C8, counterexample: on a supplier list containing only an inactive
supplier that does have an offer for the material, the implementation
returns `none` (it additionally filters on `is_active`), while the claim's
algorithm — filter only on having an offer, sort, take the first — returns
that supplier's offer. -/
theorem C8_counterexample :
    SupplierSelector.select_best_supplier "m1" [inactiveSupplier] inactiveOffers = none ∧
    selectBestSpecWording "m1" [inactiveSupplier] inactiveOffers =
      some (inactiveSupplier, inactiveOffer) :=
  ⟨by decide, by decide⟩

/-- C8, amended: `select_best_supplier` filters to the *active* suppliers
having an offer for the material, sorts those candidates by rating
descending then unit price ascending, and returns the first, or `none`
exactly when there is no such candidate; any returned candidate is one of
the candidates and is optimal under that ordering. -/
theorem C8_amended_selector (material_id : String) (suppliers : List Supplier)
    (offers : OffersMap) :
    (SupplierSelector.select_best_supplier material_id suppliers offers = none ↔
      selectorCandidates material_id suppliers offers = []) ∧
    (∀ c, SupplierSelector.select_best_supplier material_id suppliers offers = some c →
      c ∈ selectorCandidates material_id suppliers offers ∧
      ∀ d ∈ selectorCandidates material_id suppliers offers, candLE c d) := by
  have hperm := List.perm_insertionSort candLE (selectorCandidates material_id suppliers offers)
  have hsorted := List.sorted_insertionSort candLE (selectorCandidates material_id suppliers offers)
  have hdef : SupplierSelector.select_best_supplier material_id suppliers offers =
      ((selectorCandidates material_id suppliers offers).insertionSort candLE).head? := rfl
  constructor
  · rw [hdef]
    constructor
    · intro h
      have hnil := List.head?_eq_none_iff.mp h
      rw [hnil] at hperm
      exact List.perm_nil.mp hperm.symm
    · intro h
      rw [h]
      rfl
  · intro c hc
    rw [hdef] at hc
    cases hs : (selectorCandidates material_id suppliers offers).insertionSort candLE with
    | nil => rw [hs] at hc; exact absurd hc (by simp)
    | cons x t =>
      rw [hs] at hc
      have hxc : x = c := by simpa using hc
      subst hxc
      rw [hs] at hperm hsorted
      constructor
      · exact hperm.mem_iff.mp (List.mem_cons_self x t)
      · intro d hd
        have hd' : d ∈ x :: t := hperm.mem_iff.mpr hd
        rcases List.mem_cons.mp hd' with hdx | hdt
        · subst hdx
          unfold candLE
          exact Or.inr ⟨rfl, le_refl _⟩
        · exact List.rel_of_sorted_cons hsorted d hdt

/-- Witness for `C8_amended_selector`: the spec's determinism example —
ratings 4.5/4.8/4.8 with prices 120/130/125 — selects the rating-4.8,
price-125 offer (supplierC), which is a candidate and optimal. -/
theorem C8_amended_selector_witness :
    SupplierSelector.select_best_supplier "m1" exampleSuppliers exampleOffers =
      some (supplierC, offerC) ∧
    (supplierC, offerC) ∈ selectorCandidates "m1" exampleSuppliers exampleOffers ∧
    candLE (supplierC, offerC) (supplierA, offerA) ∧
    candLE (supplierC, offerC) (supplierB, offerB) := by
  have h := (C8_amended_selector "m1" exampleSuppliers exampleOffers).2 (supplierC, offerC)
    (by decide)
  exact ⟨by decide, h.1, h.2 _ (by decide), h.2 _ (by decide)⟩

/-! ### C5: processing a shortage through the supplier placement port -/

/-- C5: when a supplier has been selected, a non-success confirmation from
the placement port still persists the order — with status CANCELLED — and
the returned result reports failure carrying the supplier's failure reason;
a success confirmation persists the order as ORDERED with external_order_id
and expected_delivery taken from the confirmation (falling back to `now`
when the confirmation has no delivery estimate). -/
theorem C5_process_shortage (suppliers : List Supplier) (offers : OffersMap)
    (place_order : Supplier → PurchaseOrder → OrderConfirmation)
    (orders : List PurchaseOrder) (new_order_id : String) (now : Nat)
    (dto : ProcessShortageDTO) (supplier : Supplier) (material_info : SupplierMaterial)
    (hne : suppliers.isEmpty = false)
    (hsel : SupplierSelector.select_best_supplier dto.material_id suppliers offers =
      some (supplier, material_info)) :
    ((place_order supplier (shortageOrder dto supplier material_info new_order_id)).is_success
        = false →
      ProcessShortageUseCase.execute suppliers offers place_order orders new_order_id now dto =
        ({ success := false, order_id := some new_order_id
           message := "Supplier rejected order: " ++
             ((place_order supplier
               (shortageOrder dto supplier material_info new_order_id)).error_message.getD "None")
           supplier_name := some supplier.name, estimated_cost := none },
         orders ++ [{ shortageOrder dto supplier material_info new_order_id with
           status := OrderStatus.CANCELLED }])) ∧
    ((place_order supplier (shortageOrder dto supplier material_info new_order_id)).is_success
        = true →
      ProcessShortageUseCase.execute suppliers offers place_order orders new_order_id now dto =
        ({ success := true, order_id := some new_order_id
           message := "Order placed with " ++ supplier.name
           supplier_name := some supplier.name
           estimated_cost :=
             some (shortageOrder dto supplier material_info new_order_id).total_price },
         orders ++ [{ shortageOrder dto supplier material_info new_order_id with
           status := OrderStatus.ORDERED
           external_order_id := some (place_order supplier
             (shortageOrder dto supplier material_info new_order_id)).external_order_id
           expected_delivery := some ((place_order supplier
             (shortageOrder dto supplier material_info new_order_id)).estimated_delivery.getD
               now) }])) := by
  have hkey : ProcessShortageUseCase.execute suppliers offers place_order orders
      new_order_id now dto =
      (if (place_order supplier (shortageOrder dto supplier material_info
            new_order_id)).is_success then
        ({ success := true, order_id := some new_order_id
           message := "Order placed with " ++ supplier.name
           supplier_name := some supplier.name
           estimated_cost :=
             some (shortageOrder dto supplier material_info new_order_id).total_price },
         orders ++ [{ shortageOrder dto supplier material_info new_order_id with
           status := OrderStatus.ORDERED
           external_order_id := some (place_order supplier
             (shortageOrder dto supplier material_info new_order_id)).external_order_id
           expected_delivery := some ((place_order supplier
             (shortageOrder dto supplier material_info new_order_id)).estimated_delivery.getD
               now) }])
      else
        ({ success := false, order_id := some new_order_id
           message := "Supplier rejected order: " ++
             ((place_order supplier
               (shortageOrder dto supplier material_info new_order_id)).error_message.getD "None")
           supplier_name := some supplier.name, estimated_cost := none },
         orders ++ [{ shortageOrder dto supplier material_info new_order_id with
           status := OrderStatus.CANCELLED }])) := by
    unfold ProcessShortageUseCase.execute shortageOrder PurchaseOrder.mark_as_ordered
    simp only [hne, Bool.false_eq_true, if_false, hsel]
    rfl
  constructor
  · intro hconf
    rw [hkey, hconf]
    simp only [Bool.false_eq_true, if_false]
  · intro hconf
    rw [hkey, hconf]
    simp only [if_true]

/-- Witness for `C5_process_shortage`: the rejecting adapter turns the
shortage of 30 units into a persisted CANCELLED order and a failure result
carrying the supplier's reason "out of stock". -/
theorem C5_process_shortage_witness :
    ProcessShortageUseCase.execute [supplierA] [("s-a", [offerA])] rejectingAdapter []
      "po-1" 5
      { material_id := "m1", material_name := "Cement", shortage_quantity := 30
        triggered_by_request_id := none } =
      ({ success := false, order_id := some "po-1"
         message := "Supplier rejected order: out of stock"
         supplier_name := some "Alpha", estimated_cost := none },
       [{ shortageOrder
            { material_id := "m1", material_name := "Cement", shortage_quantity := 30
              triggered_by_request_id := none } supplierA offerA "po-1" with
          status := OrderStatus.CANCELLED }]) := by
  have h := (C5_process_shortage [supplierA] [("s-a", [offerA])] rejectingAdapter []
    "po-1" 5
    { material_id := "m1", material_name := "Cement", shortage_quantity := 30
      triggered_by_request_id := none } supplierA offerA
    (by decide) (by decide)).1 (by decide)
  exact h

end ConstructionMaterials
